import Mathlib

/-!
Verification of the CampusMonitorAPI operational core against its design
specification.  The Go sources are shallowly embedded: pure functions become
Lean functions, repository and transport calls become explicit state passing
over a command store / cache state, machine integers become `Int`/`Nat`,
`float64` metric values become `ℚ`, timestamps become `Int` milliseconds, and
fallible operations return an explicit result type.  Panics (nil-pointer
dereferences) are modelled as an error outcome.
-/

/-- JSON-like dynamic value, modelling Go `interface{}` entries of the
payload / result maps (`map[string]interface{}`). -/
inductive JVal where
  | str (s : String)
  | num (q : ℚ)
  | boolean (b : Bool)
  deriving DecidableEq, Repr

/-- Model of Go `map[string]interface{}` as an association list. -/
abbrev JMap := List (String × JVal)

/-- Model of Go `v, _ := m[k].(string)`: the string value at `k`, or `""`
when the key is absent or not a string. -/
def getStrField (m : JMap) (k : String) : String :=
  match m.lookup k with
  | some (JVal.str s) => s
  | _ => ""

/-- Model of Go `v, ok := m[k].(float64)`. -/
def getNumField (m : JMap) (k : String) : Option ℚ :=
  match m.lookup k with
  | some (JVal.num q) => some q
  | _ => none

/-- Model of Go `int(x)` for a `float64` value: truncation toward zero. -/
def goInt (q : ℚ) : Int :=
  Int.tdiv q.num (q.den : Int)

/-- Result of a fallible operation (Go `(T, error)`). -/
inductive Res (α : Type) where
  | ok (a : α)
  | err (msg : String)
  deriving DecidableEq, Repr

/-- Whether a `Res` is an error. -/
def Res.isErr {α : Type} : Res α → Bool
  | Res.ok _ => false
  | Res.err _ => true

/-! ## Data model (internal/models/models.go) -/

/-- Device record (`models.Probe`).  Timestamps are abstract instants in
milliseconds. -/
structure Probe where
  probeID : String
  location : String
  building : String
  floor : String
  department : String
  status : String
  firmwareVersion : String
  lastSeen : Int
  deriving DecidableEq, Repr

/-- Normalized telemetry record (`models.Telemetry`).  Optional fields are
`Option`-typed, mirroring the nullable pointer fields; `nil` is `none`. -/
structure Telemetry where
  timestamp : Int
  probeID : String
  variant : String
  rssi : Option Int
  latency : Option Int
  packetLoss : Option ℚ
  dnsTime : Option Int
  channel : Option Int
  bssid : Option String
  neighbors : Option Int
  overlap : Option Int
  congestion : Option Int
  snr : Option ℚ
  linkQuality : Option ℚ
  utilization : Option ℚ
  phyMode : Option String
  throughput : Option Int
  noiseFloor : Option Int
  uptime : Option Int
  deriving DecidableEq, Repr

/-- Command record (`models.Command`).  `issuedAt` ordering is represented by
list position in the store; `executedAt` is not needed by any claim. -/
structure Cmd where
  id : Nat
  probeID : String
  commandType : String
  payload : JMap
  status : String
  result : JMap
  deriving DecidableEq, Repr

/-- Command issuance request (`models.CommandRequest`). -/
structure CommandRequest where
  probeID : String
  commandType : String
  payload : JMap
  deriving DecidableEq, Repr

/-! ## Command repository (internal/repository/command_repository.go)

The `commands` table is modelled as a list in insertion (issuance) order. -/

/-- Fresh primary key for an INSERT, one past the largest id in the store. -/
def nextId (store : List Cmd) : Nat :=
  store.foldl (fun m c => max m c.id) 0 + 1

/-- `CommandRepository.UpdateStatus`: `UPDATE commands SET status, result
WHERE id = n`.  The row with the given id receives the new status and result;
no guard on the previous status exists in the SQL. -/
def updateStatusStore (store : List Cmd) (n : Nat) (st : String) (res : JMap) : List Cmd :=
  store.map fun c => if c.id = n then { c with status := st, result := res } else c

/-- Terminal statuses of the command state machine. -/
def isTerminal (st : String) : Bool :=
  st = "completed" || st = "failed"

/-- Row filter of the heuristic fallback: same device, same type, not yet
terminal. -/
def cmdMatches (pid ct : String) (c : Cmd) : Bool :=
  c.probeID = pid && c.commandType = ct && !(isTerminal c.status)

/-- Modelled from the spec: `CommandRepository.UpdateLatestResult` is called
from `CommandService.ProcessCommandResult` but its SQL is not among the
sources; per the spec it updates "the most recent non-terminal command of the
same device and type" when one exists, and is a no-op otherwise. -/
def updateLatestResult (store : List Cmd) (pid ct st : String) (res : JMap) : List Cmd :=
  match store.reverse.find? (cmdMatches pid ct) with
  | none => store
  | some c => updateStatusStore store c.id st res

/-! ## Result correlation (CommandService.ProcessCommandResult) -/

/-- Numeric value of a digit run. -/
def digitsVal (cs : List Char) : Nat :=
  cs.foldl (fun a c => a * 10 + (c.toNat - 48)) 0

/-- Leading digit run, or failure when there is none. -/
def parseDigits (cs : List Char) : Option Nat :=
  let ds := cs.takeWhile Char.isDigit
  if ds.isEmpty then none else some (digitsVal ds)

/-- Model of Go `fmt.Sscanf(s, "%d", &n)`: skip leading whitespace, optional
sign, then a digit run; fails when no digits follow. -/
def parseGoInt (s : String) : Option Int :=
  match s.data.dropWhile Char.isWhitespace with
  | '-' :: rest => (parseDigits rest).map fun n => -(n : Int)
  | '+' :: rest => (parseDigits rest).map fun n => (n : Int)
  | cs => (parseDigits cs).map fun n => (n : Int)

/-- Decoded inbound result message (the struct unmarshalled in
`ProcessCommandResult`). -/
structure ResultMsg where
  probeID : String
  command : String
  status : String
  result : JMap
  commandID : String
  deriving DecidableEq, Repr

/-- Side effects dispatched by `ProcessCommandResult` against stores other
than the row update itself (scan pruning, detached telemetry conversion,
last-seen refresh).  They are recorded as an effect trace because their
implementations act on other tables. -/
inductive SideEffect where
  | pruneOldScans (probeID : String) (keep : Nat)
  | recordDeepScanTelemetry (probeID : String)
  | updateLastSeen (probeID : String)
  deriving DecidableEq, Repr

/-- `CommandService.ProcessCommandResult`.  `none` input models a payload
that fails to unmarshal (the only failing path).  With a non-empty
correlation identifier that scans as a positive integer the row with that id
is updated; with an empty identifier the heuristic fallback runs; otherwise
nothing changes.  The returned `Bool` is `true` when processing succeeds. -/
def processCommandResult (msg : Option ResultMsg) (store : List Cmd) :
    List Cmd × Bool × List SideEffect :=
  match msg with
  | none => (store, false, [])
  | some m =>
    let store1 :=
      if m.commandID ≠ "" then
        match parseGoInt m.commandID with
        | some n => if 0 < n then updateStatusStore store n.toNat m.status m.result else store
        | none => store
      else
        updateLatestResult store m.probeID m.command m.status m.result
    let fx : List SideEffect :=
      if m.status = "completed" then
        if m.command = "deep_scan" then
          [SideEffect.pruneOldScans m.probeID 5, SideEffect.recordDeepScanTelemetry m.probeID]
        else if m.command = "get_status" then [SideEffect.updateLastSeen m.probeID]
        else if m.command = "ping" then [SideEffect.updateLastSeen m.probeID]
        else []
      else []
    (store1, true, fx)

/-! ## Connectivity verification and issuance (CommandService) -/

/-- `StaleThreshold = 60 * time.Second`, in milliseconds. -/
def staleThresholdMs : Int := 60000

/-- Environment of one `VerifyProbeConnectivity` run: the device-registry
lookup answer, whether the ping record insert and the ping publish succeed,
and the `LastSeen` value observed by each 500ms poll of the device record
(`none` models a failed `GetByID`).  The 5-second deadline admits ten polls. -/
structure VerifyEnv where
  lookup : Option Probe
  createPingOk : Bool
  sendPingOk : Bool
  polls : List (Option Int)
  deriving DecidableEq, Repr

/-- Outcome of `VerifyProbeConnectivity`. -/
inductive VerifyResult where
  | okFresh
  | okProbed
  | lookupFailed
  | createFailed
  | sendFailed
  | unreachable
  deriving DecidableEq, Repr

/-- Whether verification returned without error. -/
def VerifyResult.isOk : VerifyResult → Bool
  | VerifyResult.okFresh => true
  | VerifyResult.okProbed => true
  | _ => false

/-- The poll loop of `VerifyProbeConnectivity`: at each tick it re-reads the
device record and succeeds as soon as the stored `LastSeen` is strictly after
the pre-probe value; at most ten ticks fit before the 5s deadline. -/
def pollSucceeds (initial : Int) (polls : List (Option Int)) : Bool :=
  (polls.take 10).any fun o =>
    match o with
    | some t => decide (initial < t)
    | none => false

/-- `CommandService.VerifyProbeConnectivity`: lookup, freshness short-cut,
ping command creation and publish, then the poll loop.  The command store is
threaded because the probe command is persisted into the same table. -/
def verifyProbeConnectivity (now : Int) (probeID : String) (env : VerifyEnv)
    (store : List Cmd) : List Cmd × VerifyResult :=
  match env.lookup with
  | none => (store, VerifyResult.lookupFailed)
  | some probe =>
    if now - probe.lastSeen < staleThresholdMs then (store, VerifyResult.okFresh)
    else if env.createPingOk = false then (store, VerifyResult.createFailed)
    else
      let store1 := store ++ [⟨nextId store, probeID, "ping", [], "pending", []⟩]
      if env.sendPingOk = false then (store1, VerifyResult.sendFailed)
      else if pollSucceeds probe.lastSeen env.polls then (store1, VerifyResult.okProbed)
      else (store1, VerifyResult.unreachable)

/-- Environment of one `IssueCommand` run. -/
structure IssueEnv where
  now : Int
  createOk : Bool
  verify : VerifyEnv
  mqttOk : Bool
  deriving DecidableEq, Repr

/-- Outcome of one `IssueCommand` run: the final command store, the value
returned to the caller, and whether the type-specific dispatch switch was
reached (no transport publish happens before it). -/
structure IssueOutcome where
  store : List Cmd
  result : Res Cmd
  dispatched : Bool
  deriving DecidableEq, Repr

/-- The type-specific dispatch switch of `IssueCommand`: payload validation
for the types that require fields, then the transport publish, whose failure
is governed by `mqttOk`.  Returns the error, or `none` on success. -/
def dispatchSend (ct : String) (payload : JMap) (mqttOk : Bool) : Option String :=
  let pubErr : Option String := if mqttOk then none else some "publish failed"
  if ct = "set_wifi" then
    if getStrField payload "ssid" = "" ∨ getStrField payload "password" = "" then
      some "set_wifi requires ssid and password"
    else pubErr
  else if ct = "set_mqtt" then
    if getStrField payload "broker" = "" then some "set_mqtt requires broker" else pubErr
  else if ct = "rename_probe" then
    if getStrField payload "new_id" = "" then some "rename_probe requires new_id" else pubErr
  else if ct = "ota_update" then
    if getStrField payload "url" = "" then some "ota_update requires url" else pubErr
  else pubErr

/-- Tail of `IssueCommand` after connectivity verification: dispatch, then
transition the record to `sent` or to `failed` with the error captured in the
result payload. -/
def finishDispatch (store : List Cmd) (cid : Nat) (req : CommandRequest)
    (env : IssueEnv) : IssueOutcome :=
  match dispatchSend req.commandType req.payload env.mqttOk with
  | some msg =>
    ⟨updateStatusStore store cid "failed" [("error", JVal.str msg)],
      Res.err ("failed to send command: " ++ msg), true⟩
  | none =>
    ⟨updateStatusStore store cid "sent" [],
      Res.ok ⟨cid, req.probeID, req.commandType, req.payload, "pending", []⟩, true⟩

/-- `CommandService.IssueCommand`: persist a `pending` record, verify
connectivity unless the command is itself the ping probe, then dispatch.  A
verification failure returns the error with the record left as it was. -/
def issueCommand (req : CommandRequest) (env : IssueEnv) (store : List Cmd) :
    IssueOutcome :=
  if env.createOk = false then ⟨store, Res.err "failed to create command", false⟩
  else
    let cid := nextId store
    let store1 := store ++ [⟨cid, req.probeID, req.commandType, req.payload, "pending", []⟩]
    if req.commandType = "ping" then finishDispatch store1 cid req env
    else
      match verifyProbeConnectivity env.now req.probeID env.verify store1 with
      | (store2, vres) =>
        if vres.isOk then finishDispatch store2 cid req env
        else ⟨store2, Res.err "cannot send command: connectivity check failed", false⟩

/-! ## Sliding windows and the alert evaluator
(internal/service/topology_service.go) -/

/-- `MetricWindow`: a sliding buffer of recent metric samples.  Go `float64`
samples are modelled as rationals. -/
structure MetricWindow where
  values : List ℚ
  size : Nat
  deriving DecidableEq, Repr

/-- `NewMetricWindow`: a size below 1 is clamped to 1. -/
def newMetricWindow (size : Int) : MetricWindow :=
  if size < 1 then ⟨[], 1⟩ else ⟨[], size.toNat⟩

/-- `MetricWindow.Push`: drop the oldest sample when the buffer is full, then
append. -/
def MetricWindow.push (w : MetricWindow) (v : ℚ) : MetricWindow :=
  if w.size ≤ w.values.length then { w with values := w.values.tail ++ [v] }
  else { w with values := w.values ++ [v] }

/-- `MetricWindow.IsConsistentlyBelow`: false until the buffer is full, then
true exactly when every sample is strictly below the threshold. -/
def MetricWindow.isConsistentlyBelow (w : MetricWindow) (t : ℚ) : Bool :=
  if w.values.length < w.size then false
  else w.values.all fun v => decide (v < t)

/-- `MetricWindow.IsConsistentlyAbove`: false until the buffer is full, then
true exactly when every sample is strictly above the threshold. -/
def MetricWindow.isConsistentlyAbove (w : MetricWindow) (t : ℚ) : Bool :=
  if w.values.length < w.size then false
  else w.values.all fun v => decide (t < v)

/-- States reachable from `NewMetricWindow` by pushes: positive capacity and
never more samples than the capacity. -/
def MetricWindow.Inv (w : MetricWindow) : Prop :=
  1 ≤ w.size ∧ w.values.length ≤ w.size

/-- Push a whole sample sequence, oldest first. -/
def pushAll (w : MetricWindow) (l : List ℚ) : MetricWindow :=
  l.foldl MetricWindow.push w

/-- Alerting configuration (`models.AlertConfig`). -/
structure AlertConfig where
  rssiThreshold : ℚ
  rssiOccurrences : Int
  latencyThreshold : ℚ
  latencyWindow : Int
  heartbeatTimeout : Int
  deriving DecidableEq, Repr

/-- Per-device window state (`ProbeState`). -/
structure ProbeState where
  rssiWindow : MetricWindow
  latencyWindow : MetricWindow
  deriving DecidableEq, Repr

/-- Alert event handed to the alert sink by `AlertEvaluator.dispatch`; the
formatted message text is not modelled. -/
structure AlertEvent where
  probeID : String
  category : String
  severity : String
  metricKey : String
  thresholdValue : ℚ
  actualValue : ℚ
  occurrences : Int
  deriving DecidableEq, Repr

/-- In-memory evaluator state: the current configuration and the per-device
window map (`probeStates`), modelled as a partial function. -/
structure AlertEvaluator where
  config : AlertConfig
  probeStates : String → Option ProbeState

/-- `AlertEvaluator.Evaluate`.  The Go code dereferences `*telemetry.RSSI`
and `*telemetry.Latency` without nil checks; a `none` in either field is a
nil-pointer dereference, modelled as the `Res.err` outcome (panic).  On
success the per-device state advances and the triggered alerts are returned
in dispatch order. -/
def AlertEvaluator.evaluate (e : AlertEvaluator) (t : Telemetry) :
    Res (AlertEvaluator × List AlertEvent) :=
  let state :=
    match e.probeStates t.probeID with
    | some s => s
    | none => ⟨newMetricWindow e.config.rssiOccurrences, newMetricWindow e.config.latencyWindow⟩
  match t.rssi with
  | none => Res.err "nil pointer dereference"
  | some r =>
    let rw := state.rssiWindow.push (r : ℚ)
    let a1 : List AlertEvent :=
      if rw.isConsistentlyBelow e.config.rssiThreshold then
        [⟨t.probeID, "signal", "warning", "rssi", e.config.rssiThreshold, (r : ℚ),
          e.config.rssiOccurrences⟩]
      else []
    match t.latency with
    | none => Res.err "nil pointer dereference"
    | some lat =>
      let lw := state.latencyWindow.push (lat : ℚ)
      let a2 : List AlertEvent :=
        if lw.isConsistentlyAbove e.config.latencyThreshold then
          [⟨t.probeID, "network", "critical", "latency", e.config.latencyThreshold, (lat : ℚ),
            e.config.rssiOccurrences⟩]
        else []
      Res.ok
        ({ e with probeStates := fun p => if p = t.probeID then some ⟨rw, lw⟩ else e.probeStates p },
          a1 ++ a2)

/-- `AlertEvaluator.UpdateConfig`: replacing the configuration resets the
whole per-device map when either window size changed. -/
def AlertEvaluator.updateConfig (e : AlertEvaluator) (newCfg : AlertConfig) : AlertEvaluator :=
  if newCfg.rssiOccurrences ≠ e.config.rssiOccurrences ∨
      newCfg.latencyWindow ≠ e.config.latencyWindow then
    { config := newCfg, probeStates := fun _ => none }
  else
    { e with config := newCfg }

/-- `AlertEvaluator.ResetProbe`: delete one device from the map. -/
def AlertEvaluator.resetProbe (e : AlertEvaluator) (probeID : String) : AlertEvaluator :=
  { e with probeStates := fun p => if p = probeID then none else e.probeStates p }

/-! ## Telemetry decoding and ingestion (internal/service/telemetry_service.go) -/

/-- Decoded view of the raw JSON object of an inbound telemetry message,
restricted to the keys the pipeline reads.  Each field is `some` exactly when
the key is present with the asserted dynamic type. -/
structure RawMsg where
  pid : Option String
  msgType : Option String
  epoch : Option ℚ
  rssi : Option ℚ
  lat : Option ℚ
  loss : Option ℚ
  dns : Option ℚ
  ch : Option ℚ
  cong : Option ℚ
  bssid : Option String
  neighbors : Option ℚ
  overlap : Option ℚ
  snr : Option ℚ
  qual : Option ℚ
  util : Option ℚ
  phy : Option String
  tput : Option ℚ
  noise : Option ℚ
  up : Option ℚ
  deriving DecidableEq, Repr

/-- `TelemetryService.parseLightTelemetry`: identity and timestamp are
mandatory; every other field stays unset when absent. -/
def parseLightTelemetry (m : RawMsg) : Res Telemetry :=
  match m.pid with
  | none => Res.err "missing probe_id"
  | some pid =>
    match m.epoch with
    | none => Res.err "missing epoch timestamp"
    | some ep =>
      Res.ok
        { timestamp := goInt ep, probeID := pid, variant := "light",
          rssi := m.rssi.map goInt, latency := m.lat.map goInt, packetLoss := m.loss,
          dnsTime := m.dns.map goInt, channel := m.ch.map goInt,
          congestion := m.cong.map goInt, bssid := m.bssid,
          neighbors := m.neighbors.map goInt, overlap := m.overlap.map goInt,
          snr := none, linkQuality := none, utilization := none, phyMode := none,
          throughput := none, noiseFloor := none, uptime := none }

/-- `TelemetryService.parseEnhancedTelemetry`: decode the light fields, then
layer the enhanced ones. -/
def parseEnhancedTelemetry (m : RawMsg) : Res Telemetry :=
  match parseLightTelemetry m with
  | Res.err e => Res.err e
  | Res.ok t =>
    Res.ok
      { t with
          variant := "enhanced", snr := m.snr, linkQuality := m.qual,
          utilization := m.util, phyMode := m.phy, throughput := m.tput.map goInt,
          noiseFloor := m.noise.map goInt, uptime := m.up.map goInt }

/-- Environment of one `ProcessMessage` run: the registry lookup answer
(`none` models both not-found and a lookup error, which Go treats alike),
whether the auto-registration insert succeeds, whether the telemetry insert
succeeds, and the current instant. -/
structure IngestEnv where
  lookup : Option Probe
  createOk : Bool
  insertOk : Bool
  now : Int
  deriving DecidableEq, Repr

/-- Outcome of one `ProcessMessage` run: the value returned to the transport
handler, the device record passed to the registry create (if any), whether
that create succeeded, and whether the telemetry record was persisted. -/
structure IngestOutcome where
  result : Res Telemetry
  registrationAttempt : Option Probe
  registrationSucceeded : Bool
  persisted : Bool
  deriving DecidableEq, Repr

/-- `TelemetryService.ProcessMessage`: unmarshal (a `none` input models a
malformed payload), identity check, auto-registration of unknown devices
(failure only logged), variant dispatch, parse, persist.  The best-effort
last-contact update after persistence does not affect the outcome. -/
def processMessage (raw : Option RawMsg) (env : IngestEnv) : IngestOutcome :=
  match raw with
  | none => ⟨Res.err "invalid JSON", none, false, false⟩
  | some m =>
    match m.pid with
    | none => ⟨Res.err "missing probe_id", none, false, false⟩
    | some pid =>
      let attempt : Option Probe :=
        match env.lookup with
        | some _ => none
        | none =>
          some
            { probeID := pid, location := "Unknown", building := "Unknown",
              floor := "Unknown", department := "Unknown", status := "unknown",
              firmwareVersion := "unknown", lastSeen := env.now }
      let regOk := attempt.isSome && env.createOk
      match m.msgType with
      | none => ⟨Res.err "missing or invalid type field", attempt, regOk, false⟩
      | some ty =>
        let parsed : Res Telemetry :=
          if ty = "light" then parseLightTelemetry m
          else if ty = "enhanced" then parseEnhancedTelemetry m
          else Res.err ("unknown telemetry type: " ++ ty)
        match parsed with
        | Res.err e => ⟨Res.err e, attempt, regOk, false⟩
        | Res.ok t =>
          if env.insertOk then ⟨Res.ok t, attempt, regOk, true⟩
          else ⟨Res.err "insert failed", attempt, regOk, false⟩

/-! ## Passive probe monitor (internal/service/probe_monitor_service.go) -/

/-- Cached unsolicited status broadcast (`ProbeStatusCache`). -/
structure StatusEntry where
  probeID : String
  uptime : Int
  freeHeap : Int
  rssi : Int
  ip : String
  ssid : String
  tempC : ℚ
  timestampField : String
  updatedAt : Int
  deriving DecidableEq, Repr

/-- Cached unsolicited config broadcast (`ProbeConfigCache`); the nested wifi
and mqtt maps are carried opaquely. -/
structure ConfigEntry where
  probeID : String
  heapFree : Int
  uptime : Int
  tempC : ℚ
  timestampField : String
  updatedAt : Int
  deriving DecidableEq, Repr

/-- Liveness flag (`PingStatus`). -/
structure PingEntry where
  online : Bool
  lastSeen : Int
  updatedAt : Int
  deriving DecidableEq, Repr

/-- The three in-memory caches of the passive probe monitor. -/
structure MonitorState where
  probeStatus : String → Option StatusEntry
  probeConfig : String → Option ConfigEntry
  pingStatus : String → Option PingEntry

/-- Status and config entries older than 15 minutes are evicted by the
sweep. -/
def monitorStaleThresholdMs : Int := 900000

/-- Liveness flips to offline after 3 minutes without contact. -/
def offlineThresholdMs : Int := 180000

/-- `ProbeMonitor.cleanupStaleData`: evict stale status and config entries,
and rewrite stale liveness entries to offline with a fresh update stamp. -/
def cleanupStaleData (now : Int) (s : MonitorState) : MonitorState :=
  { probeStatus := fun p =>
      match s.probeStatus p with
      | some e => if monitorStaleThresholdMs < now - e.updatedAt then none else some e
      | none => none,
    probeConfig := fun p =>
      match s.probeConfig p with
      | some e => if monitorStaleThresholdMs < now - e.updatedAt then none else some e
      | none => none,
    pingStatus := fun p =>
      match s.pingStatus p with
      | some e =>
        if offlineThresholdMs < now - e.lastSeen then
          some ⟨false, e.lastSeen, now⟩
        else some e
      | none => none }

/-- `ProbeMonitor.setPingStatus`. -/
def setPingStatus (probeID : String) (online : Bool) (now : Int) (s : MonitorState) :
    MonitorState :=
  { s with pingStatus := fun p => if p = probeID then some ⟨online, now, now⟩ else s.pingStatus p }

/-- `ProbeMonitor.handleStatusBroadcast`: drop payloads without a device
identity, otherwise overwrite the status cache entry with the recognized
fields, and mark the device online.  The detached database last-seen refresh
is outside the cache state. -/
def handleStatusBroadcast (data : Option JMap) (now : Int) (s : MonitorState) : MonitorState :=
  match data with
  | none => s
  | some d =>
    match d.lookup "probe_id" with
    | some (JVal.str pid) =>
      let entry : StatusEntry :=
        { probeID := pid,
          uptime := ((getNumField d "uptime").map goInt).getD 0,
          freeHeap := ((getNumField d "free_heap").map goInt).getD 0,
          rssi := ((getNumField d "rssi").map goInt).getD 0,
          ip := getStrField d "ip",
          ssid := getStrField d "ssid",
          tempC := (getNumField d "temp_c").getD 0,
          timestampField := getStrField d "timestamp",
          updatedAt := now }
      setPingStatus pid true now
        { s with probeStatus := fun p => if p = pid then some entry else s.probeStatus p }
    | _ => s

/-- `ProbeMonitor.GetProbeStatus`: a plain cache read (`nil` when absent). -/
def getProbeStatus (s : MonitorState) (probeID : String) : Option StatusEntry :=
  s.probeStatus probeID

/-- `ProbeMonitor.GetProbeConfig`. -/
def getProbeConfig (s : MonitorState) (probeID : String) : Option ConfigEntry :=
  s.probeConfig probeID

/-- `ProbeMonitor.GetPingStatus`: a missing entry reads as offline. -/
def getPingStatus (s : MonitorState) (probeID : String) (now : Int) : PingEntry :=
  match s.pingStatus probeID with
  | some e => e
  | none => ⟨false, 0, now⟩

/-! ## Transport topics (internal/mqtt, cmd/api/main.go) -/

/-- Topic used by `Client.publishCommand` for per-device commands. -/
def commandTopic (probeID : String) : String :=
  "campus/probes/" ++ probeID ++ "/command"

/-- Fixed topic used by `Client.BroadcastCommand`. -/
def broadcastCommandTopic : String := "campus/probes/broadcast/command"

/-- Subscription pattern for per-device command results (main.go). -/
def resultTopicPattern : String := "campus/probes/+/result"

/-- Subscription pattern for unsolicited status broadcasts. -/
def statusTopicPattern : String := "campus/probes/+/status"

/-- Subscription pattern for unsolicited config broadcasts. -/
def configTopicPattern : String := "campus/probes/+/config"

/-- Per-device result topic a device publishes on. -/
def resultTopic (probeID : String) : String :=
  "campus/probes/" ++ probeID ++ "/result"

/-- Per-device status broadcast topic. -/
def statusTopic (probeID : String) : String :=
  "campus/probes/" ++ probeID ++ "/status"

/-- Per-device config broadcast topic. -/
def configTopic (probeID : String) : String :=
  "campus/probes/" ++ probeID ++ "/config"

/-- Character loop of `splitTopic`, carrying the current segment. -/
def splitTopicAux : List Char → List Char → List String
  | [], cur => if cur.isEmpty then [] else [String.mk cur]
  | c :: rest, cur =>
    if c = '/' then
      if cur.isEmpty then splitTopicAux rest []
      else String.mk cur :: splitTopicAux rest []
    else splitTopicAux rest (cur ++ [c])

/-- `splitTopic`: split on `/`, dropping empty segments. -/
def splitTopic (s : String) : List String :=
  splitTopicAux s.data []

/-- Positional comparison loop of `matchTopic` (after the length guard). -/
def matchLoop : List String → List String → Bool
  | [], ts => ts.isEmpty
  | p :: ps, ts =>
    if p = "#" then true
    else
      match ts with
      | [] => false
      | t :: ts2 => if p = "+" then matchLoop ps ts2 else if p = t then matchLoop ps ts2 else false

/-- `matchTopic`: exact match, or wildcard pattern match with a length
guard. -/
def matchTopic (pattern topic : String) : Bool :=
  if pattern = topic then true
  else
    let pp := splitTopic pattern
    let tp := splitTopic topic
    if tp.length < pp.length then false
    else matchLoop pp tp

/-! ## Concrete fixtures used by the verification results -/

/-- A command already in the terminal `completed` state. -/
def completedPingCmd : Cmd := ⟨1, "p1", "ping", [], "completed", []⟩

/-- A device whose last contact is far in the past (stale at any realistic
`now`). -/
def staleProbe : Probe := ⟨"p1", "Lab", "Main", "1", "IT", "active", "1.0", 0⟩

/-- A device seen one second before the fixture `now` of `1000000`. -/
def freshProbe : Probe := ⟨"p1", "Lab", "Main", "1", "IT", "active", "1.0", 999000⟩

/-- A restart request for device `p1`. -/
def restartReq : CommandRequest := ⟨"p1", "restart", []⟩

/-- Issuance environment in which the device is stale and never answers the
probe: every poll observes a failed lookup. -/
def unreachableEnv : IssueEnv := ⟨1000000, true, ⟨some staleProbe, true, true, List.replicate 10 none⟩, true⟩

/-- Issuance environment in which the device is fresh but the transport
publish fails. -/
def publishFailEnv : IssueEnv := ⟨1000000, true, ⟨some freshProbe, true, true, []⟩, false⟩

/-- A light telemetry message with identity and timestamp but no `rssi`
field, as a device legitimately may send. -/
def rawMissingRssi : RawMsg :=
  ⟨some "probe-1", some "light", some 17, none, some 20, none, none, none, none, none,
    none, none, none, none, none, none, none, none, none⟩

/-- The record `parseLightTelemetry` produces for `rawMissingRssi`: the RSSI
stays unset. -/
def telemetryNoRssi : Telemetry :=
  ⟨17, "probe-1", "light", none, some 20, none, none, none, none, none, none, none,
    none, none, none, none, none, none, none⟩

/-- A fresh evaluator with default-like thresholds and no per-device
state. -/
def evaluatorInit : AlertEvaluator := ⟨⟨-85, 3, 100, 5, 30⟩, fun _ => none⟩

/-- A partially filled per-device window state. -/
def probeStateA : ProbeState := ⟨MetricWindow.push (newMetricWindow 3) 1, newMetricWindow 5⟩

/-- An evaluator holding in-memory window state for device `A` only. -/
def evaluatorWithA : AlertEvaluator :=
  ⟨⟨-85, 3, 100, 5, 30⟩, fun p => if p = "A" then some probeStateA else none⟩

/-- The same configuration with a different RSSI occurrence window size. -/
def cfgResized : AlertConfig := ⟨-85, 4, 100, 5, 30⟩

/-- Command history with two `sent` rows for different devices. -/
def c2Store : List Cmd :=
  [⟨1, "p1", "ping", [], "sent", []⟩, ⟨2, "p9", "ping", [], "sent", []⟩]

/-- A result message with an explicit correlation identifier `2` whose device
and type match neither row. -/
def c2ExplicitMsg : ResultMsg := ⟨"pX", "reboot", "completed", [("out", JVal.str "ok")], "2"⟩

/-- A light telemetry message from a device unknown to the registry. -/
def rawLightNew : RawMsg :=
  ⟨some "new-probe", some "light", some 17, some (-70), some 20, none, none, none, none,
    none, none, none, none, none, none, none, none, none, none⟩

/-- Ingestion environment with an unknown device and a working registry. -/
def ingestEnvCreateOk : IngestEnv := ⟨none, true, true, 5000⟩

/-- Ingestion environment with an unknown device whose registration insert
fails. -/
def ingestEnvCreateFail : IngestEnv := ⟨none, false, true, 5000⟩

/-- Stale monitor cache entries (all stamped at instant 0). -/
def staleStatusEntry : StatusEntry := ⟨"A", 0, 0, 0, "", "", 0, "", 0⟩

/-- Stale config cache entry. -/
def staleConfigEntry : ConfigEntry := ⟨"B", 0, 0, 0, "", 0⟩

/-- Stale liveness entry, still flagged online. -/
def stalePingEntry : PingEntry := ⟨true, 0, 0⟩

/-- Monitor caches holding one stale entry each. -/
def monitorBefore : MonitorState :=
  ⟨fun p => if p = "A" then some staleStatusEntry else none,
    fun p => if p = "B" then some staleConfigEntry else none,
    fun p => if p = "C" then some stalePingEntry else none⟩

/-! ## Helper lemmas -/

theorem MetricWindow.push_size (w : MetricWindow) (v : ℚ) : (w.push v).size = w.size := by
  unfold MetricWindow.push
  split <;> rfl

theorem pushAll_size (l : List ℚ) (w : MetricWindow) : (pushAll w l).size = w.size := by
  induction l generalizing w with
  | nil => rfl
  | cons a t ih =>
    have h : pushAll w (a :: t) = pushAll (w.push a) t := rfl
    rw [h, ih, MetricWindow.push_size]

theorem pushAll_values (l : List ℚ) (w : MetricWindow)
    (h : w.values.length + l.length ≤ w.size) : (pushAll w l).values = w.values ++ l := by
  induction l generalizing w with
  | nil => simp [pushAll]
  | cons a t ih =>
    have hlen : (a :: t).length = t.length + 1 := by simp
    have hlt : w.values.length < w.size := by rw [hlen] at h; omega
    have hpush : (w.push a).values = w.values ++ [a] := by
      unfold MetricWindow.push
      rw [if_neg (by omega)]
    have hstep : pushAll w (a :: t) = pushAll (w.push a) t := rfl
    rw [hstep, ih (w.push a)
      (by rw [hpush, MetricWindow.push_size, List.length_append, hlen] at *; simp at *; omega)]
    rw [hpush, List.append_assoc]
    rfl

/-! ## C4: sliding-window semantics -/

/-- C4 counterexample: for a window of capacity N = 1 the claimed scenario
fails — zero non-conforming samples followed by one conforming sample fills
the window, and is-consistently-below returns `true`, not `false`. -/
theorem metricWindow_capacity_one_cx :
    (MetricWindow.push (newMetricWindow 1) 0).isConsistentlyBelow 1 = true := by decide

/-- C4 (amended): push appends and evicts the oldest exactly when the window
already holds N samples; is-consistently-below (above) holds iff the window
holds exactly N samples all strictly below (above) the threshold; and for
every capacity N ≥ 2, N−1 non-conforming samples followed by one conforming
sample yield `false` (for N = 1 the conforming sample alone fills the window
and the test returns `true`). -/
theorem metricWindow_window_semantics
    (w : MetricWindow) (v t : ℚ) (hw : w.Inv)
    (N : ℕ) (hN : 2 ≤ N)
    (bad : List ℚ) (good tb : ℚ) (hlen : bad.length = N - 1)
    (hbad : ∀ x ∈ bad, tb ≤ x) (hgood : good < tb)
    (bad2 : List ℚ) (good2 tb2 : ℚ) (hlen2 : bad2.length = N - 1)
    (hbad2 : ∀ x ∈ bad2, x ≤ tb2) (hgood2 : tb2 < good2) :
    ((w.values.length = w.size → (w.push v).values = w.values.tail ++ [v]) ∧
      (w.values.length < w.size → (w.push v).values = w.values ++ [v])) ∧
    (w.isConsistentlyBelow t = true ↔ w.values.length = w.size ∧ ∀ x ∈ w.values, x < t) ∧
    (w.isConsistentlyAbove t = true ↔ w.values.length = w.size ∧ ∀ x ∈ w.values, t < x) ∧
    (pushAll (newMetricWindow (N : Int)) (bad ++ [good])).isConsistentlyBelow tb = false ∧
    (pushAll (newMetricWindow (N : Int)) (bad2 ++ [good2])).isConsistentlyAbove tb2 = false := by
  obtain ⟨hs1, hs2⟩ := hw
  have hsize : (newMetricWindow (N : Int)).size = N := by
    unfold newMetricWindow
    rw [if_neg (by omega)]
    simp
  have hvals : (newMetricWindow (N : Int)).values = [] := by
    unfold newMetricWindow
    split <;> rfl
  refine ⟨⟨?_, ?_⟩, ?_, ?_, ?_, ?_⟩
  · intro h
    unfold MetricWindow.push
    rw [if_pos (by omega)]
  · intro h
    unfold MetricWindow.push
    rw [if_neg (by omega)]
  · unfold MetricWindow.isConsistentlyBelow
    by_cases hlt : w.values.length < w.size
    · rw [if_pos hlt]
      simp only [Bool.false_eq_true, false_iff]
      rintro ⟨h1, -⟩
      omega
    · rw [if_neg hlt]
      have heq : w.values.length = w.size := by omega
      simp [List.all_eq_true, heq]
  · unfold MetricWindow.isConsistentlyAbove
    by_cases hlt : w.values.length < w.size
    · rw [if_pos hlt]
      simp only [Bool.false_eq_true, false_iff]
      rintro ⟨h1, -⟩
      omega
    · rw [if_neg hlt]
      have heq : w.values.length = w.size := by omega
      simp [List.all_eq_true, heq]
  · have hlen1 : (bad ++ [good]).length = N := by
      simp [hlen]
      omega
    have hpv : (pushAll (newMetricWindow (N : Int)) (bad ++ [good])).values = bad ++ [good] := by
      have h0 := pushAll_values (bad ++ [good]) (newMetricWindow (N : Int))
        (by rw [hvals, hsize, hlen1]; simp)
      rw [hvals] at h0
      simpa using h0
    have hbadne : bad ≠ [] := by
      intro hnil
      rw [hnil] at hlen
      simp at hlen
      omega
    obtain ⟨b0, hb0⟩ := List.exists_mem_of_ne_nil bad hbadne
    unfold MetricWindow.isConsistentlyBelow
    rw [pushAll_size, hpv, hsize, hlen1]
    rw [if_neg (by omega)]
    apply Bool.eq_false_iff.mpr
    simp only [ne_eq, List.all_eq_true, decide_eq_true_eq, not_forall]
    exact ⟨b0, List.mem_append_left _ hb0, not_lt.mpr (hbad b0 hb0)⟩
  · have hlen1 : (bad2 ++ [good2]).length = N := by
      simp [hlen2]
      omega
    have hpv : (pushAll (newMetricWindow (N : Int)) (bad2 ++ [good2])).values = bad2 ++ [good2] := by
      have h0 := pushAll_values (bad2 ++ [good2]) (newMetricWindow (N : Int))
        (by rw [hvals, hsize, hlen1]; simp)
      rw [hvals] at h0
      simpa using h0
    have hbadne : bad2 ≠ [] := by
      intro hnil
      rw [hnil] at hlen2
      simp at hlen2
      omega
    obtain ⟨b0, hb0⟩ := List.exists_mem_of_ne_nil bad2 hbadne
    unfold MetricWindow.isConsistentlyAbove
    rw [pushAll_size, hpv, hsize, hlen1]
    rw [if_neg (by omega)]
    apply Bool.eq_false_iff.mpr
    simp only [ne_eq, List.all_eq_true, decide_eq_true_eq, not_forall]
    exact ⟨b0, List.mem_append_left _ hb0, not_lt.mpr (hbad2 b0 hb0)⟩

/-- Witness for C4: the amended window semantics at a concrete window of
capacity 2 holding samples 5 and 6, with the two trigger scenarios run at
capacity N = 2. -/
theorem metricWindow_window_semantics_witness :
    MetricWindow.Inv ⟨[5, 6], 2⟩ ∧
    ((((MetricWindow.mk [5, 6] 2).values.length = (MetricWindow.mk [5, 6] 2).size →
        (MetricWindow.push ⟨[5, 6], 2⟩ 7).values = (MetricWindow.mk [5, 6] 2).values.tail ++ [7]) ∧
      ((MetricWindow.mk [5, 6] 2).values.length < (MetricWindow.mk [5, 6] 2).size →
        (MetricWindow.push ⟨[5, 6], 2⟩ 7).values = (MetricWindow.mk [5, 6] 2).values ++ [7])) ∧
    (MetricWindow.isConsistentlyBelow ⟨[5, 6], 2⟩ 10 = true ↔
      (MetricWindow.mk [5, 6] 2).values.length = (MetricWindow.mk [5, 6] 2).size ∧
        ∀ x ∈ (MetricWindow.mk [5, 6] 2).values, x < 10) ∧
    (MetricWindow.isConsistentlyAbove ⟨[5, 6], 2⟩ 10 = true ↔
      (MetricWindow.mk [5, 6] 2).values.length = (MetricWindow.mk [5, 6] 2).size ∧
        ∀ x ∈ (MetricWindow.mk [5, 6] 2).values, 10 < x) ∧
    (pushAll (newMetricWindow 2) ([3] ++ [1])).isConsistentlyBelow 2 = false ∧
    (pushAll (newMetricWindow 2) ([1] ++ [5])).isConsistentlyAbove 3 = false) :=
  ⟨⟨by decide, by decide⟩,
    metricWindow_window_semantics ⟨[5, 6], 2⟩ 7 10 ⟨by decide, by decide⟩ 2 (by decide)
      [3] 1 2 (by decide) (by decide) (by decide)
      [1] 5 3 (by decide) (by decide) (by decide)⟩

/-! ## C6: configuration change and per-device reset frame -/

/-- C6: a configuration update that changes the RSSI-occurrences or latency
window size clears the in-memory window state of every device, while
resetting a single device clears only that device and leaves every other
device's state unchanged. -/
theorem updateConfig_reset_frame
    (e : AlertEvaluator) (newCfg : AlertConfig) (target : String)
    (hchanged : newCfg.rssiOccurrences ≠ e.config.rssiOccurrences ∨
      newCfg.latencyWindow ≠ e.config.latencyWindow) :
    (∀ d, (e.updateConfig newCfg).probeStates d = none) ∧
    (e.resetProbe target).probeStates target = none ∧
    (∀ d, d ≠ target → (e.resetProbe target).probeStates d = e.probeStates d) := by
  refine ⟨?_, ?_, ?_⟩
  · intro d
    unfold AlertEvaluator.updateConfig
    rw [if_pos hchanged]
  · unfold AlertEvaluator.resetProbe
    simp
  · intro d hd
    unfold AlertEvaluator.resetProbe
    simp [hd]

/-- Witness for C6: resizing the RSSI window from 3 to 4 clears device `A`'s
state, and resetting `A` clears `A` while leaving `B` untouched. -/
theorem updateConfig_reset_frame_witness :
    (cfgResized.rssiOccurrences ≠ evaluatorWithA.config.rssiOccurrences ∨
      cfgResized.latencyWindow ≠ evaluatorWithA.config.latencyWindow) ∧
    (evaluatorWithA.updateConfig cfgResized).probeStates "A" = none ∧
    (evaluatorWithA.resetProbe "A").probeStates "A" = none ∧
    (evaluatorWithA.resetProbe "A").probeStates "B" = evaluatorWithA.probeStates "B" :=
  ⟨Or.inl (by decide),
    (updateConfig_reset_frame evaluatorWithA cfgResized "A" (Or.inl (by decide))).1 "A",
    (updateConfig_reset_frame evaluatorWithA cfgResized "A" (Or.inl (by decide))).2.1,
    (updateConfig_reset_frame evaluatorWithA cfgResized "A" (Or.inl (by decide))).2.2 "B"
      (by decide)⟩

/-! ## C7: nil dereference in the alert evaluator -/

/-- C7: the decoder legitimately leaves the optional RSSI field unset, yet
`AlertEvaluator.Evaluate` dereferences the RSSI and latency pointers without
a nil check, so evaluating such a record panics instead of completing; the
panic is modelled as the error outcome. -/
theorem evaluate_nil_rssi_panics :
    parseLightTelemetry rawMissingRssi = Res.ok telemetryNoRssi ∧
    telemetryNoRssi.rssi = none ∧
    evaluatorInit.evaluate telemetryNoRssi = Res.err "nil pointer dereference" :=
  ⟨by decide, rfl, rfl⟩

/-! ## C9: stale-cache sweep of the passive probe monitor -/

/-- C9: after a sweep at instant `now`, a status or config entry stamped more
than 15 minutes before `now` is absent from cache reads, a liveness entry
last seen more than 3 minutes before `now` reads as offline, and a new status
broadcast for the device makes it read online again. -/
theorem cleanup_stale_eviction
    (s : MonitorState) (now now2 : Int) (p q r : String)
    (es : StatusEntry) (ec : ConfigEntry) (ep : PingEntry)
    (hs : s.probeStatus p = some es) (hstale : monitorStaleThresholdMs < now - es.updatedAt)
    (hc : s.probeConfig q = some ec) (hcstale : monitorStaleThresholdMs < now - ec.updatedAt)
    (hp : s.pingStatus r = some ep) (hpstale : offlineThresholdMs < now - ep.lastSeen) :
    getProbeStatus (cleanupStaleData now s) p = none ∧
    getProbeConfig (cleanupStaleData now s) q = none ∧
    (getPingStatus (cleanupStaleData now s) r now).online = false ∧
    (getPingStatus (handleStatusBroadcast (some [("probe_id", JVal.str r)]) now2
        (cleanupStaleData now s)) r now2).online = true := by
  refine ⟨?_, ?_, ?_, ?_⟩
  · unfold getProbeStatus cleanupStaleData
    simp [hs, hstale]
  · unfold getProbeConfig cleanupStaleData
    simp [hc, hcstale]
  · unfold getPingStatus cleanupStaleData
    simp [hp, hpstale]
  · unfold handleStatusBroadcast setPingStatus getPingStatus
    simp

/-- Witness for C9: with all three caches holding entries stamped at instant
0, a sweep at instant 1000000 evicts the status and config entries, flips the
liveness flag to offline, and a later status broadcast flips it back
online. -/
theorem cleanup_stale_eviction_witness :
    getProbeStatus (cleanupStaleData 1000000 monitorBefore) "A" = none ∧
    getProbeConfig (cleanupStaleData 1000000 monitorBefore) "B" = none ∧
    (getPingStatus (cleanupStaleData 1000000 monitorBefore) "C" 1000000).online = false ∧
    (getPingStatus (handleStatusBroadcast (some [("probe_id", JVal.str "C")]) 2000000
        (cleanupStaleData 1000000 monitorBefore)) "C" 2000000).online = true :=
  cleanup_stale_eviction monitorBefore 1000000 2000000 "A" "B" "C"
    staleStatusEntry staleConfigEntry stalePingEntry
    (by decide) (by decide) (by decide) (by decide) (by decide) (by decide)

/-! ## Shared lemmas about the command store -/

theorem mem_updateStatusStore_of_eq {store : List Cmd} {c : Cmd} {n : Nat} (st : String)
    (res : JMap) (hc : c ∈ store) (h : c.id = n) :
    { c with status := st, result := res } ∈ updateStatusStore store n st res :=
  List.mem_map.mpr ⟨c, hc, by simp [h]⟩

theorem mem_updateStatusStore_of_ne {store : List Cmd} {c : Cmd} {n : Nat} (st : String)
    (res : JMap) (hc : c ∈ store) (h : c.id ≠ n) : c ∈ updateStatusStore store n st res :=
  List.mem_map.mpr ⟨c, hc, by simp [h]⟩

theorem verify_store_extends (now : Int) (pid : String) (venv : VerifyEnv)
    (store : List Cmd) :
    ∃ ext, (verifyProbeConnectivity now pid venv store).1 = store ++ ext := by
  unfold verifyProbeConnectivity
  cases hl : venv.lookup with
  | none => exact ⟨[], by simp⟩
  | some probe =>
    simp only
    split_ifs
    · exact ⟨[], by simp⟩
    · exact ⟨[], by simp⟩
    · exact ⟨[⟨nextId store, pid, "ping", [], "pending", []⟩], rfl⟩
    · exact ⟨[⟨nextId store, pid, "ping", [], "pending", []⟩], rfl⟩
    · exact ⟨[⟨nextId store, pid, "ping", [], "pending", []⟩], rfl⟩

/-! ## C3: terminal states are not protected -/

/-- C3 counterexample: a command already `completed` receives a later result
message with an explicit correlation identifier and status `failed`, and its
status changes out of the terminal state. -/
theorem terminal_status_overwritten_cx :
    completedPingCmd.status = "completed" ∧
    (processCommandResult (some ⟨"p1", "ping", "failed", [], "1"⟩) [completedPingCmd]).1 =
      [⟨1, "p1", "ping", [], "failed", []⟩] := by decide

/-- C3 (amended): the explicit-identifier update path overwrites the
identified row's status unconditionally, terminal or not, while the
heuristic no-identifier path never selects a terminal command (it only
matches non-terminal rows). -/
theorem updateStatus_unguarded_heuristic_guarded
    (store : List Cmd) (n : Nat) (st : String) (res : JMap) (c : Cmd)
    (hnd : (store.map Cmd.id).Nodup)
    (hc : c ∈ store) (hid : c.id = n) (hterm : isTerminal c.status = true) :
    { c with status := st, result := res } ∈ updateStatusStore store n st res ∧
    (∀ pid ct st2 res2, ∀ d ∈ store, isTerminal d.status = true →
      d ∈ updateLatestResult store pid ct st2 res2) := by
  constructor
  · exact mem_updateStatusStore_of_eq st res hc hid
  · intro pid ct st2 res2 d hd hdterm
    unfold updateLatestResult
    cases hfind : store.reverse.find? (cmdMatches pid ct) with
    | none => exact hd
    | some c0 =>
      have hc0mem : c0 ∈ store := by
        have h0 := List.mem_of_find?_eq_some hfind
        rwa [List.mem_reverse] at h0
      have hc0p : cmdMatches pid ct c0 = true := List.find?_some hfind
      have hnterm : isTerminal c0.status = false := by
        unfold cmdMatches at hc0p
        simp only [Bool.and_eq_true, Bool.not_eq_true'] at hc0p
        exact hc0p.2
      have hne : d.id ≠ c0.id := by
        intro he
        have hdc : d = c0 := List.inj_on_of_nodup_map hnd hd hc0mem he
        rw [hdc, hnterm] at hdterm
        exact Bool.false_ne_true hdterm
      exact mem_updateStatusStore_of_ne st2 res2 hd hne

/-- Witness for C3 (amended): a one-row history whose only command is
`completed`; the explicit update flips it, the heuristic path leaves it. -/
theorem updateStatus_unguarded_heuristic_guarded_witness :
    { completedPingCmd with status := "failed", result := ([] : JMap) } ∈
      updateStatusStore [completedPingCmd] 1 "failed" [] ∧
    completedPingCmd ∈ updateLatestResult [completedPingCmd] "p1" "ping" "completed" [] :=
  ⟨(updateStatus_unguarded_heuristic_guarded [completedPingCmd] 1 "failed" [] completedPingCmd
      (by decide) (by decide) (by decide) (by decide)).1,
    (updateStatus_unguarded_heuristic_guarded [completedPingCmd] 1 "failed" [] completedPingCmd
      (by decide) (by decide) (by decide) (by decide)).2 "p1" "ping" "completed" []
      completedPingCmd (by decide) (by decide)⟩

/-! ## C5: what a failed issuance leaves in history -/

/-- C5 counterexample: an issuance that fails connectivity verification
returns an error, yet the command record is left in `pending` — no `failed`
record with the error exists in history. -/
theorem issuance_error_without_failed_record_cx :
    (issueCommand restartReq unreachableEnv []).result.isErr = true ∧
    ((issueCommand restartReq unreachableEnv []).store.all fun c => c.status != "failed") = true ∧
    (⟨1, "p1", "restart", [], "pending", []⟩ : Cmd) ∈
      (issueCommand restartReq unreachableEnv []).store := by decide

/-- C5 (amended): when issuance fails at the dispatch step (payload
validation or transport publish), a `failed` record with the error captured
in its result payload remains in history; when it fails at connectivity
verification the record remains but stays `pending`, and when the initial
create fails no record is added at all. -/
theorem issuance_failure_record_disposition
    (req : CommandRequest) (env : IssueEnv) (store : List Cmd) (msg : String) :
    (env.createOk = false →
      issueCommand req env store = ⟨store, Res.err "failed to create command", false⟩) ∧
    (env.createOk = true → req.commandType = "ping" →
      dispatchSend req.commandType req.payload env.mqttOk = some msg →
      ((issueCommand req env store).result.isErr = true ∧
        (⟨nextId store, req.probeID, req.commandType, req.payload, "failed",
          [("error", JVal.str msg)]⟩ : Cmd) ∈ (issueCommand req env store).store)) ∧
    (env.createOk = true → req.commandType ≠ "ping" →
      (verifyProbeConnectivity env.now req.probeID env.verify
        (store ++ [⟨nextId store, req.probeID, req.commandType, req.payload, "pending", []⟩])).2.isOk
        = true →
      dispatchSend req.commandType req.payload env.mqttOk = some msg →
      ((issueCommand req env store).result.isErr = true ∧
        (⟨nextId store, req.probeID, req.commandType, req.payload, "failed",
          [("error", JVal.str msg)]⟩ : Cmd) ∈ (issueCommand req env store).store)) ∧
    (env.createOk = true → req.commandType ≠ "ping" →
      (verifyProbeConnectivity env.now req.probeID env.verify
        (store ++ [⟨nextId store, req.probeID, req.commandType, req.payload, "pending", []⟩])).2.isOk
        = false →
      ((issueCommand req env store).result.isErr = true ∧
        (⟨nextId store, req.probeID, req.commandType, req.payload, "pending", []⟩ : Cmd) ∈
          (issueCommand req env store).store ∧
        (issueCommand req env store).dispatched = false)) := by
  refine ⟨?_, ?_, ?_, ?_⟩
  · intro h
    unfold issueCommand
    rw [if_pos h]
  · intro hco hping hd
    unfold issueCommand
    rw [if_neg (by simp [hco]), if_pos hping]
    unfold finishDispatch
    rw [hd]
    refine ⟨rfl, ?_⟩
    exact mem_updateStatusStore_of_eq _ _ (List.mem_append_right _ (List.mem_singleton_self _)) rfl
  · intro hco hping hv hd
    unfold issueCommand
    rw [if_neg (by simp [hco]), if_neg hping]
    obtain ⟨ext, hext⟩ := verify_store_extends env.now req.probeID env.verify
      (store ++ [⟨nextId store, req.probeID, req.commandType, req.payload, "pending", []⟩])
    rcases hV : verifyProbeConnectivity env.now req.probeID env.verify
      (store ++ [⟨nextId store, req.probeID, req.commandType, req.payload, "pending", []⟩]) with
      ⟨st2, vr⟩
    rw [hV] at hv hext
    simp only at hv hext
    simp only [hV]
    rw [if_pos hv]
    unfold finishDispatch
    simp only [hd]
    have hcmem : (⟨nextId store, req.probeID, req.commandType, req.payload, "pending", []⟩ : Cmd)
        ∈ st2 := by
      rw [hext]
      exact List.mem_append_left _ (List.mem_append_right _ (List.mem_singleton_self _))
    exact ⟨rfl, mem_updateStatusStore_of_eq _ _ hcmem rfl⟩
  · intro hco hping hv
    unfold issueCommand
    rw [if_neg (by simp [hco]), if_neg hping]
    obtain ⟨ext, hext⟩ := verify_store_extends env.now req.probeID env.verify
      (store ++ [⟨nextId store, req.probeID, req.commandType, req.payload, "pending", []⟩])
    rcases hV : verifyProbeConnectivity env.now req.probeID env.verify
      (store ++ [⟨nextId store, req.probeID, req.commandType, req.payload, "pending", []⟩]) with
      ⟨st2, vr⟩
    rw [hV] at hv hext
    simp only at hv hext
    simp only [hV]
    rw [if_neg (by rw [hv]; exact Bool.false_ne_true)]
    refine ⟨rfl, ?_, rfl⟩
    rw [hext]
    exact List.mem_append_left _ (List.mem_append_right _ (List.mem_singleton_self _))

/-- Witness for C5 (amended): issuing a restart to a fresh device over a
failing transport leaves a `failed` record carrying the publish error, via
the dispatch-failure clause. -/
theorem issuance_failure_record_disposition_witness :
    (issueCommand restartReq publishFailEnv []).result.isErr = true ∧
    (⟨1, "p1", "restart", [], "failed", [("error", JVal.str "publish failed")]⟩ : Cmd) ∈
      (issueCommand restartReq publishFailEnv []).store :=
  (issuance_failure_record_disposition restartReq publishFailEnv [] "publish failed").2.2.1
    rfl (by decide) (by decide) (by decide)

/-! ## C8: auto-registration of unknown devices during ingestion -/

/-- C8: a telemetry message with a valid identity whose device is unknown to
the registry triggers creation of a device record with placeholder
attributes and status `unknown`, and whether that creation succeeds or fails
has no effect on the parse / persist outcome of the message. -/
theorem processMessage_autoregisters_unknown
    (m : RawMsg) (env : IngestEnv) (pid : String) (b1 b2 : Bool)
    (hpid : m.pid = some pid) (hunknown : env.lookup = none) :
    (processMessage (some m) { env with createOk := b1 }).registrationAttempt =
      some { probeID := pid, location := "Unknown", building := "Unknown", floor := "Unknown",
             department := "Unknown", status := "unknown", firmwareVersion := "unknown",
             lastSeen := env.now } ∧
    (processMessage (some m) { env with createOk := b1 }).result =
      (processMessage (some m) { env with createOk := b2 }).result ∧
    (processMessage (some m) { env with createOk := b1 }).persisted =
      (processMessage (some m) { env with createOk := b2 }).persisted := by
  unfold processMessage
  simp only [hpid, hunknown]
  cases hty : m.msgType with
  | none => exact ⟨rfl, rfl, rfl⟩
  | some ty =>
    rcases hp : (if ty = "light" then parseLightTelemetry m
      else if ty = "enhanced" then parseEnhancedTelemetry m
      else Res.err ("unknown telemetry type: " ++ ty)) with t | e
    · simp only [hp]
      by_cases hi : env.insertOk = true
      · simp [hi]
      · simp only [Bool.not_eq_true] at hi
        simp [hi]
    · simp [hp]

/-- Witness for C8: a light message from `new-probe`, unknown to the
registry; the registration attempt is the placeholder record, and the parse
and persist outcomes agree whether the create succeeds or fails. -/
theorem processMessage_autoregisters_unknown_witness :
    (processMessage (some rawLightNew) ingestEnvCreateOk).registrationAttempt =
      some { probeID := "new-probe", location := "Unknown", building := "Unknown",
             floor := "Unknown", department := "Unknown", status := "unknown",
             firmwareVersion := "unknown", lastSeen := 5000 } ∧
    (processMessage (some rawLightNew) ingestEnvCreateOk).result =
      (processMessage (some rawLightNew) ingestEnvCreateFail).result ∧
    (processMessage (some rawLightNew) ingestEnvCreateOk).persisted =
      (processMessage (some rawLightNew) ingestEnvCreateFail).persisted :=
  processMessage_autoregisters_unknown rawLightNew ⟨none, true, true, 5000⟩
    "new-probe" true false (by decide) rfl

/-! ## C10: topic naming -/

theorem string_data_append (a b : String) : (a ++ b).data = a.data ++ b.data := rfl

theorem splitTopicAux_no_slash (l : List Char) (rest cur : List Char)
    (h : ∀ c ∈ l, c ≠ '/') :
    splitTopicAux (l ++ rest) cur = splitTopicAux rest (cur ++ l) := by
  induction l generalizing cur with
  | nil => simp
  | cons a tl ih =>
    have ha : ¬(a = '/') := h a (List.mem_cons_self a tl)
    show splitTopicAux (a :: (tl ++ rest)) cur = _
    simp only [splitTopicAux]
    rw [if_neg ha, ih (cur ++ [a]) (fun c hc => h c (List.mem_cons_of_mem a hc))]
    simp

theorem splitTopicAux_prefix (rest : List Char) :
    splitTopicAux ("campus/probes/".data ++ rest) [] =
      "campus" :: "probes" :: splitTopicAux rest [] := rfl

theorem splitTopic_device_topic (d suf seg : String) (hne : d.data ≠ [])
    (hns : ∀ c ∈ d.data, c ≠ '/')
    (hsuf : suf.data = '/' :: seg.data)
    (hseg : splitTopicAux seg.data [] = [seg]) :
    splitTopic ("campus/probes/" ++ d ++ suf) = ["campus", "probes", d, seg] := by
  unfold splitTopic
  have h1 : ("campus/probes/" ++ d ++ suf).data
      = "campus/probes/".data ++ (d.data ++ suf.data) := by
    rw [string_data_append, string_data_append, List.append_assoc]
  rw [h1, splitTopicAux_prefix, splitTopicAux_no_slash d.data suf.data [] hns]
  simp only [List.nil_append]
  rw [hsuf]
  simp only [splitTopicAux, if_true]
  rw [if_neg (by simp [hne]), hseg]

theorem matchTopic_plus (pat topic : String) (d seg : String)
    (hpat : splitTopic pat = ["campus", "probes", "+", seg])
    (htop : splitTopic topic = ["campus", "probes", d, seg]) :
    matchTopic pat topic = true := by
  unfold matchTopic
  by_cases heq : pat = topic
  · rw [if_pos heq]
  · rw [if_neg heq]
    simp only [hpat, htop]
    rw [if_neg (by simp)]
    simp [matchLoop]

/-- C10 counterexample: per-device commands are published on the topic
ending in `/command`, not `/cmd` as claimed. -/
theorem commandTopic_not_cmd_cx :
    commandTopic "probe1" ≠ "campus/probes/probe1/cmd" ∧
    commandTopic "probe1" = "campus/probes/probe1/command" := by decide

/-- C10 (amended): with namespace `campus/probes`, per-device commands are
published on `<namespace>/<device>/command` (not `.../cmd`); per-device
results, status broadcasts and config broadcasts are consumed via the
wildcard subscriptions, which match `<namespace>/<device>/result`,
`.../status` and `.../config` for every single-level device key. -/
theorem topic_conventions (d : String) (hne : d.data ≠ []) (hns : ∀ c ∈ d.data, c ≠ '/') :
    commandTopic d = "campus/probes/" ++ d ++ "/command" ∧
    broadcastCommandTopic = "campus/probes/broadcast/command" ∧
    matchTopic resultTopicPattern (resultTopic d) = true ∧
    matchTopic statusTopicPattern (statusTopic d) = true ∧
    matchTopic configTopicPattern (configTopic d) = true := by
  refine ⟨rfl, rfl, ?_, ?_, ?_⟩
  · exact matchTopic_plus resultTopicPattern (resultTopic d) d "result" rfl
      (splitTopic_device_topic d "/result" "result" hne hns rfl rfl)
  · exact matchTopic_plus statusTopicPattern (statusTopic d) d "status" rfl
      (splitTopic_device_topic d "/status" "status" hne hns rfl rfl)
  · exact matchTopic_plus configTopicPattern (configTopic d) d "config" rfl
      (splitTopic_device_topic d "/config" "config" hne hns rfl rfl)

/-- Witness for C10 (amended): the topic conventions at device key
`probe1`. -/
theorem topic_conventions_witness :
    commandTopic "probe1" = "campus/probes/" ++ "probe1" ++ "/command" ∧
    broadcastCommandTopic = "campus/probes/broadcast/command" ∧
    matchTopic resultTopicPattern (resultTopic "probe1") = true ∧
    matchTopic statusTopicPattern (statusTopic "probe1") = true ∧
    matchTopic configTopicPattern (configTopic "probe1") = true :=
  topic_conventions "probe1" (by decide) (by decide)

/-! ## C2: result correlation -/

theorem find?_append_cons {α : Type} (p : α → Bool) (l1 l2 : List α) (a : α)
    (h1 : ∀ x ∈ l1, p x = false) (ha : p a = true) :
    (l1 ++ a :: l2).find? p = some a := by
  induction l1 with
  | nil => exact List.find?_cons_of_pos _ ha
  | cons b t ih =>
    have hb : p b = false := h1 b (List.mem_cons_self b t)
    rw [List.cons_append, List.find?_cons_of_neg _ (by simp [hb])]
    exact ih (fun x hx => h1 x (List.mem_cons_of_mem b hx))

/-- C2: a result with a valid positive correlation identifier updates exactly
the row with that id, regardless of device or type; without an identifier,
the most recently issued matching non-terminal command is updated when one
exists and nothing changes otherwise; processing succeeds in every case. -/
theorem processCommandResult_correlation
    (store : List Cmd) (m : ResultMsg) (n : Int)
    (hnd : (store.map Cmd.id).Nodup) :
    (m.commandID ≠ "" → parseGoInt m.commandID = some n → 0 < n →
      (∀ c ∈ store, c.id = n.toNat →
        { c with status := m.status, result := m.result } ∈
          (processCommandResult (some m) store).1) ∧
      (∀ c ∈ store, c.id ≠ n.toNat → c ∈ (processCommandResult (some m) store).1)) ∧
    (m.commandID = "" → (∀ c ∈ store, cmdMatches m.probeID m.command c = false) →
      (processCommandResult (some m) store).1 = store) ∧
    (m.commandID = "" → ∀ pre c post, store = pre ++ c :: post →
      cmdMatches m.probeID m.command c = true →
      (∀ x ∈ post, cmdMatches m.probeID m.command x = false) →
      (processCommandResult (some m) store).1 =
        pre ++ { c with status := m.status, result := m.result } :: post) ∧
    (processCommandResult (some m) store).2.1 = true := by
  refine ⟨?_, ?_, ?_, rfl⟩
  · intro hne hp hpos
    have hred : (processCommandResult (some m) store).1 =
        updateStatusStore store n.toNat m.status m.result := by
      simp [processCommandResult, hne, hp, hpos]
    constructor
    · intro c hc hcid
      rw [hred]
      exact mem_updateStatusStore_of_eq _ _ hc hcid
    · intro c hc hcid
      rw [hred]
      exact mem_updateStatusStore_of_ne _ _ hc hcid
  · intro hemp hnone
    have hred : (processCommandResult (some m) store).1 =
        updateLatestResult store m.probeID m.command m.status m.result := by
      simp [processCommandResult, hemp]
    rw [hred]
    unfold updateLatestResult
    have hfind : store.reverse.find? (cmdMatches m.probeID m.command) = none := by
      rw [List.find?_eq_none]
      intro x hx
      simp [hnone x (List.mem_reverse.mp hx)]
    rw [hfind]
  · intro hemp pre c post hsplit hc hpost
    have hred : (processCommandResult (some m) store).1 =
        updateLatestResult store m.probeID m.command m.status m.result := by
      simp [processCommandResult, hemp]
    rw [hred]
    subst hsplit
    have hrev : (pre ++ c :: post).reverse = post.reverse ++ c :: pre.reverse := by
      simp [List.reverse_append]
    have hfind : (pre ++ c :: post).reverse.find? (cmdMatches m.probeID m.command) = some c := by
      rw [hrev]
      exact find?_append_cons _ post.reverse pre.reverse c
        (fun x hx => hpost x (List.mem_reverse.mp hx)) hc
    simp only [updateLatestResult, hfind]
    rw [List.map_append, List.map_cons] at hnd
    obtain ⟨hnpre, hnrest, hdisj⟩ := List.nodup_append.mp hnd
    have hcpost : c.id ∉ post.map Cmd.id := (List.nodup_cons.mp hnrest).1
    have hpre_ne : ∀ x ∈ pre, x.id ≠ c.id := by
      intro x hx he
      exact absurd (List.mem_cons_self c.id (post.map Cmd.id))
        (hdisj (he ▸ List.mem_map_of_mem Cmd.id hx))
    have hpost_ne : ∀ x ∈ post, x.id ≠ c.id := by
      intro x hx he
      exact hcpost (he ▸ List.mem_map_of_mem Cmd.id hx)
    unfold updateStatusStore
    rw [List.map_append, List.map_cons]
    rw [if_pos rfl]
    congr 1
    · rw [List.map_congr_left (fun x hx => if_neg (hpre_ne x hx))]
      exact List.map_id _
    · congr 1
      rw [List.map_congr_left (fun x hx => if_neg (hpost_ne x hx))]
      exact List.map_id _

/-- Witness for C2: an explicit identifier `2` updates row 2 despite
device/type mismatch, row 1 is untouched, and processing succeeds. -/
theorem processCommandResult_correlation_witness :
    (⟨2, "p9", "ping", [], "completed", [("out", JVal.str "ok")]⟩ : Cmd) ∈
      (processCommandResult (some c2ExplicitMsg) c2Store).1 ∧
    (⟨1, "p1", "ping", [], "sent", []⟩ : Cmd) ∈
      (processCommandResult (some c2ExplicitMsg) c2Store).1 ∧
    (processCommandResult (some c2ExplicitMsg) c2Store).2.1 = true :=
  ⟨((processCommandResult_correlation c2Store c2ExplicitMsg 2 (by decide)).1
      (by decide) (by decide) (by decide)).1 ⟨2, "p9", "ping", [], "sent", []⟩
      (by decide) rfl,
    ((processCommandResult_correlation c2Store c2ExplicitMsg 2 (by decide)).1
      (by decide) (by decide) (by decide)).2 ⟨1, "p1", "ping", [], "sent", []⟩
      (by decide) (by decide),
    (processCommandResult_correlation c2Store c2ExplicitMsg 2 (by decide)).2.2.2⟩

/-! ## C1: connectivity verification on issuance -/

/-- C1: for a non-ping issuance against a known device: if the device was
seen within 60 seconds, verification succeeds immediately, no probe command
is created, and a successful dispatch publishes the command and marks it
`sent`; otherwise a ping probe command is created and published and the
verdict is decided by the polls — verification succeeds exactly when some
poll observes last-contact strictly past its pre-probe value, and if none
does, issuance returns the unreachable error, the command is never
dispatched, and its record stays `pending` (never `sent`). -/
theorem issueCommand_connectivity_protocol
    (req : CommandRequest) (env : IssueEnv) (store : List Cmd) (probe : Probe)
    (hcreate : env.createOk = true) (hping : req.commandType ≠ "ping")
    (hlk : env.verify.lookup = some probe) :
    (env.now - probe.lastSeen < staleThresholdMs →
      verifyProbeConnectivity env.now req.probeID env.verify
          (store ++ [⟨nextId store, req.probeID, req.commandType, req.payload, "pending", []⟩]) =
        (store ++ [⟨nextId store, req.probeID, req.commandType, req.payload, "pending", []⟩],
          VerifyResult.okFresh) ∧
      (dispatchSend req.commandType req.payload env.mqttOk = none →
        issueCommand req env store =
          ⟨updateStatusStore
              (store ++ [⟨nextId store, req.probeID, req.commandType, req.payload, "pending", []⟩])
              (nextId store) "sent" [],
            Res.ok ⟨nextId store, req.probeID, req.commandType, req.payload, "pending", []⟩,
            true⟩)) ∧
    (¬(env.now - probe.lastSeen < staleThresholdMs) → env.verify.createPingOk = true →
      env.verify.sendPingOk = true →
      (verifyProbeConnectivity env.now req.probeID env.verify
          (store ++ [⟨nextId store, req.probeID, req.commandType, req.payload, "pending", []⟩])).1 =
        store ++ [⟨nextId store, req.probeID, req.commandType, req.payload, "pending", []⟩] ++
          [⟨nextId (store ++ [⟨nextId store, req.probeID, req.commandType, req.payload, "pending", []⟩]),
            req.probeID, "ping", [], "pending", []⟩] ∧
      ((verifyProbeConnectivity env.now req.probeID env.verify
          (store ++ [⟨nextId store, req.probeID, req.commandType, req.payload, "pending", []⟩])).2.isOk = true ↔
        pollSucceeds probe.lastSeen env.verify.polls = true) ∧
      (pollSucceeds probe.lastSeen env.verify.polls = false →
        issueCommand req env store =
          ⟨store ++ [⟨nextId store, req.probeID, req.commandType, req.payload, "pending", []⟩] ++
            [⟨nextId (store ++ [⟨nextId store, req.probeID, req.commandType, req.payload, "pending", []⟩]),
              req.probeID, "ping", [], "pending", []⟩],
            Res.err "cannot send command: connectivity check failed", false⟩)) := by
  constructor
  · intro hfresh
    have hv : verifyProbeConnectivity env.now req.probeID env.verify
        (store ++ [⟨nextId store, req.probeID, req.commandType, req.payload, "pending", []⟩]) =
        (store ++ [⟨nextId store, req.probeID, req.commandType, req.payload, "pending", []⟩],
          VerifyResult.okFresh) := by
      unfold verifyProbeConnectivity
      simp only [hlk]
      rw [if_pos hfresh]
    refine ⟨hv, ?_⟩
    intro hdisp
    unfold issueCommand
    rw [if_neg (by simp [hcreate]), if_neg hping]
    simp only [hv]
    rw [if_pos (show VerifyResult.isOk VerifyResult.okFresh = true from rfl)]
    unfold finishDispatch
    simp only [hdisp]
  · intro hstale hcp hsp
    by_cases hpoll : pollSucceeds probe.lastSeen env.verify.polls = true
    · have hv : verifyProbeConnectivity env.now req.probeID env.verify
          (store ++ [⟨nextId store, req.probeID, req.commandType, req.payload, "pending", []⟩]) =
          (store ++ [⟨nextId store, req.probeID, req.commandType, req.payload, "pending", []⟩] ++
            [⟨nextId (store ++ [⟨nextId store, req.probeID, req.commandType, req.payload, "pending", []⟩]),
              req.probeID, "ping", [], "pending", []⟩],
            VerifyResult.okProbed) := by
        unfold verifyProbeConnectivity
        simp only [hlk]
        rw [if_neg hstale, if_neg (by simp [hcp]), if_neg (by simp [hsp]), if_pos hpoll]
      refine ⟨by rw [hv], by simp [hv, hpoll, VerifyResult.isOk], ?_⟩
      intro hp2
      rw [hp2] at hpoll
      exact absurd hpoll (by simp)
    · have hpoll2 : pollSucceeds probe.lastSeen env.verify.polls = false := by
        simp only [Bool.not_eq_true] at hpoll
        exact hpoll
      have hv : verifyProbeConnectivity env.now req.probeID env.verify
          (store ++ [⟨nextId store, req.probeID, req.commandType, req.payload, "pending", []⟩]) =
          (store ++ [⟨nextId store, req.probeID, req.commandType, req.payload, "pending", []⟩] ++
            [⟨nextId (store ++ [⟨nextId store, req.probeID, req.commandType, req.payload, "pending", []⟩]),
              req.probeID, "ping", [], "pending", []⟩],
            VerifyResult.unreachable) := by
        unfold verifyProbeConnectivity
        simp only [hlk]
        rw [if_neg hstale, if_neg (by simp [hcp]), if_neg (by simp [hsp]),
          if_neg (by simp [hpoll2])]
      refine ⟨by rw [hv], by simp [hv, hpoll2, VerifyResult.isOk], ?_⟩
      intro hp2
      unfold issueCommand
      rw [if_neg (by simp [hcreate]), if_neg hping]
      simp only [hv]
      rw [if_neg (by simp [VerifyResult.isOk])]

/-- Witness for C1: a restart issued to the stale, silent device of
`unreachableEnv` creates and publishes the probe; no poll observes progress,
the verdict is negative, and issuance fails leaving both the requested
command and the probe command `pending`. -/
theorem issueCommand_connectivity_protocol_witness :
    (verifyProbeConnectivity 1000000 "p1" unreachableEnv.verify
        ([] ++ [⟨1, "p1", "restart", [], "pending", []⟩])).1 =
      [⟨1, "p1", "restart", [], "pending", []⟩] ++ [⟨2, "p1", "ping", [], "pending", []⟩] ∧
    ((verifyProbeConnectivity 1000000 "p1" unreachableEnv.verify
        ([] ++ [⟨1, "p1", "restart", [], "pending", []⟩])).2.isOk = true ↔
      pollSucceeds 0 unreachableEnv.verify.polls = true) ∧
    issueCommand restartReq unreachableEnv [] =
      ⟨[⟨1, "p1", "restart", [], "pending", []⟩] ++ [⟨2, "p1", "ping", [], "pending", []⟩],
        Res.err "cannot send command: connectivity check failed", false⟩ :=
  ⟨((issueCommand_connectivity_protocol restartReq unreachableEnv [] staleProbe rfl
      (by decide) rfl).2 (by decide) rfl rfl).1,
    ((issueCommand_connectivity_protocol restartReq unreachableEnv [] staleProbe rfl
      (by decide) rfl).2 (by decide) rfl rfl).2.1,
    ((issueCommand_connectivity_protocol restartReq unreachableEnv [] staleProbe rfl
      (by decide) rfl).2 (by decide) rfl rfl).2.2 (by decide)⟩
